import Mathlib

/-!
# api-server-gpt: a shallow embedding of the service and its checked properties

The development follows the three packages of the repository.

* `internal/apiserver/apiserver.go`: the HTTP service life cycle (`NewHttpServer`,
  `parseOptions`, `Start`, `Handle`, `HandleFunc`).
* `internal/gpt/gpt.go` and `internal/config/config.go`: the conversation session
  (`NewClient`, `instruct`, `Prompt`, `newChatCompletionRequest`) and the configuration
  check (`normalize`).
* `main.go`: the body of the `/prompt` handler.

Go values are modelled as follows.  A Go `map[string]V` is a function
`String → Option V`.  A `panic` is an explicit outcome.  The standard library pieces that
the code calls (`http.ServeMux`, `http.ResponseWriter`, `http.Error`) are modelled from
their documented behaviour (classic `ServeMux`, as shipped before pattern wildcards).
Everything the environment decides (the upstream stream, whether a push on the channel is
received in time, the results of `ListenAndServe`, `Shutdown` and `Close`, the content of
files) is an explicit argument.  Goroutines are run to completion in program order.
-/

namespace Go

/-- Error values of the Go program.  The three sentinels are the ones the code compares
against (`io.EOF`, `context.DeadlineExceeded`, `http.ErrServerClosed`); every other error
is identified by its message.  Errors that wrap a sentinel are not modelled, so
`errors.Is(err, io.EOF)` and `err == io.EOF` are the same test. -/
inductive GoError where
  | eof
  | deadlineExceeded
  | errServerClosed
  | other (msg : String)
  deriving DecidableEq, Repr

/-- The `Error()` method. -/
def GoError.Error : GoError → String
  | .eof => "EOF"
  | .deadlineExceeded => "context deadline exceeded"
  | .errServerClosed => "http: Server closed"
  | .other msg => msg

/-- A Go `map[string]V`. -/
abbrev GoMap (V : Type) := String → Option V

/-- The empty map, `make(map[string]V)`. -/
def GoMap.empty {V : Type} : GoMap V := fun _ => none

/-- Map assignment `m[k] = v`. -/
def GoMap.set {V : Type} (m : GoMap V) (k : String) (v : V) : GoMap V :=
  fun q => if q = k then some v else m q

/-- Map membership, the `ok` of `_, ok := m[k]`. -/
def GoMap.has {V : Type} (m : GoMap V) (k : String) : Bool := (m k).isSome

/-- The part of `*http.Request` the program reads: the bytes of the body. -/
structure Request where
  Body : String

/-- An `http.ResponseWriter`: the header map still open for changes, the status line once
written, the header as it was sent with the status line, and the body written so far. -/
structure ResponseWriter where
  header : GoMap String
  status : Option Nat
  sent : GoMap String
  body : String

/-- A response writer nothing has been written to. -/
def ResponseWriter.fresh : ResponseWriter :=
  { header := GoMap.empty, status := none, sent := GoMap.empty, body := "" }

/-- Model of `w.Header().Set(k, v)`. -/
def ResponseWriter.HeaderSet (w : ResponseWriter) (k v : String) : ResponseWriter :=
  { w with header := w.header.set k v }

/-- Model of `w.WriteHeader(code)`: the first call fixes status and header, later calls are
ignored. -/
def ResponseWriter.WriteHeader (w : ResponseWriter) (code : Nat) : ResponseWriter :=
  match w.status with
  | some _ => w
  | none => { w with status := some code, sent := w.header }

/-- Model of `w.Write(data)`: writes status 200 first when no status was written. -/
def ResponseWriter.Write (w : ResponseWriter) (data : String) : ResponseWriter :=
  let w1 := w.WriteHeader 200
  { w1 with body := w1.body ++ data }

/-- Model of `http.Error(w, msg, code)`. -/
def httpError (w : ResponseWriter) (msg : String) (code : Nat) : ResponseWriter :=
  let w1 := w.HeaderSet "Content-Type" "text/plain; charset=utf-8"
  let w2 := w1.HeaderSet "X-Content-Type-Options" "nosniff"
  let w3 := w2.WriteHeader code
  w3.Write (msg ++ "\n")

end Go

namespace apiserver

open Go

/-- A non-nil `func(w http.ResponseWriter, r *http.Request)`. -/
abbrev Responder := Request → ResponseWriter → ResponseWriter

/-- An `http.HandlerFunc` value; `none` is the nil func. -/
abbrev HandlerFunc := Option Responder

/-- An `http.Handler` interface value: the nil interface, or an `http.HandlerFunc` (which
may itself hold a nil func). -/
inductive Handler where
  | nil
  | func (f : HandlerFunc)

/-- The struct `ServerOptions`; durations are nanoseconds. -/
structure ServerOptions where
  HttpAPITimeout : Int
  ShutdownTimeout : Int
  Port : Int
  HealthFunc : HandlerFunc
  ReadyFunc : HandlerFunc
  MetricsFunc : HandlerFunc

/-- What `apiserver.go` uses from outside the file: the package constants `PORT`,
`HTTP_API_TIMEOUT`, `SHUTDOWN_TIMEOUT` (declared in a file that is not part of the
sources) and the five `net/http/pprof` functions. -/
structure Pkg where
  PORT : Int
  HTTP_API_TIMEOUT : Int
  SHUTDOWN_TIMEOUT : Int
  pprofIndex : Responder
  pprofCmdline : Responder
  pprofProfile : Responder
  pprofSymbol : Responder
  pprofTrace : Responder

/-- The closure `parseOptions` installs as default responder. -/
def defaultResponder : Responder :=
  fun _ w => (w.HeaderSet "X-Content-Type-Options" "nosniff").WriteHeader 200

/-- Model of `parseOptions`. -/
def parseOptions (pkg : Pkg) (opts : ServerOptions) : ServerOptions :=
  let opts := if opts.Port = 0 then { opts with Port := pkg.PORT } else opts
  let opts :=
    if opts.HttpAPITimeout = 0 then { opts with HttpAPITimeout := pkg.HTTP_API_TIMEOUT } else opts
  let opts :=
    if opts.ShutdownTimeout = 0 then { opts with ShutdownTimeout := pkg.SHUTDOWN_TIMEOUT } else opts
  let opts :=
    match opts.HealthFunc with
    | none => { opts with HealthFunc := some defaultResponder }
    | some _ => opts
  let opts :=
    match opts.ReadyFunc with
    | none => { opts with ReadyFunc := some defaultResponder }
    | some _ => opts
  opts

/-- An `http.ServeMux`: its pattern table. -/
structure ServeMux where
  m : GoMap Handler

/-- Model of `http.NewServeMux()`. -/
def NewServeMux : ServeMux := { m := GoMap.empty }

/-- Model of `(*http.ServeMux).Handle`; `Except.error` is a panic with its message. -/
def ServeMux.Handle (mux : ServeMux) (pattern : String) (handler : Handler) :
    Except String ServeMux :=
  if pattern = "" then .error "http: invalid pattern"
  else
    match handler with
    | .nil => .error "http: nil handler"
    | .func f =>
      if mux.m.has pattern then .error ("http: multiple registrations for " ++ pattern)
      else .ok { m := mux.m.set pattern (.func f) }

/-- Model of `(*http.ServeMux).HandleFunc`. -/
def ServeMux.HandleFunc (mux : ServeMux) (pattern : String) (handler : HandlerFunc) :
    Except String ServeMux :=
  match handler with
  | none => .error "http: nil handler"
  | some f => mux.Handle pattern (.func (some f))

/-- The `Handler` field of `http.Server`: nil, or the server's own mux. -/
inductive ServerHandler where
  | unset
  | mux
  deriving DecidableEq, Repr

/-- The fields of `http.Server` the code sets. -/
structure HttpServer where
  Addr : String
  Handler : ServerHandler

/-- The struct `httpserver`. -/
structure httpserver where
  http : HttpServer
  mux : ServeMux
  opts : ServerOptions
  started : Int
  handlers : GoMap Handler

/-- Model of `NewHttpServer`; `Except.error` is a panic of one of the five `mux.Handle`
calls. -/
def NewHttpServer (pkg : Pkg) (opts : ServerOptions) : Except String httpserver := do
  let opts := parseOptions pkg opts
  let mux := NewServeMux
  let mux ← mux.Handle "/debug/pprof/" (.func (some pkg.pprofIndex))
  let mux ← mux.Handle "/debug/pprof/cmdline" (.func (some pkg.pprofCmdline))
  let mux ← mux.Handle "/debug/pprof/profile" (.func (some pkg.pprofProfile))
  let mux ← mux.Handle "/debug/pprof/symbol" (.func (some pkg.pprofSymbol))
  let mux ← mux.Handle "/debug/pprof/trace" (.func (some pkg.pprofTrace))
  return { mux := mux
           http := { Addr := ":" ++ toString opts.Port, Handler := .unset }
           opts := opts
           started := 0
           handlers := GoMap.empty }

/-- Model of `isStarted`. -/
def isStarted (s : httpserver) : Bool := s.started == 1

/-- Model of `isHandled`. -/
def isHandled (s : httpserver) (pattern : String) : Bool := s.handlers.has pattern

/-- How a call of `Handle` or `HandleFunc` ends: it returns its error value, or it panics;
either way with the server state it leaves behind. -/
inductive Outcome where
  | ret (s : httpserver) (err : Option GoError)
  | panicked (s : httpserver) (msg : String)

/-- Model of `fmt.Errorf("%s is already registered", pattern)`. -/
def alreadyRegistered (pattern : String) : GoError :=
  .other (pattern ++ " is already registered")

/-- Model of `(*httpserver).Handle`. -/
def Handle (s : httpserver) (pattern : String) (handler : Handler) : Outcome :=
  if isHandled s pattern then .ret s (some (alreadyRegistered pattern))
  else
    let s1 := { s with handlers := s.handlers.set pattern handler }
    match s1.mux.Handle pattern handler with
    | .error msg => .panicked s1 msg
    | .ok mux => .ret { s1 with mux := mux } none

/-- Model of `(*httpserver).HandleFunc`. -/
def HandleFunc (s : httpserver) (pattern : String) (handler : HandlerFunc) : Outcome :=
  if isHandled s pattern then .ret s (some (alreadyRegistered pattern))
  else
    let s1 := { s with handlers := s.handlers.set pattern (.func handler) }
    match s1.mux.HandleFunc pattern handler with
    | .error msg => .panicked s1 msg
    | .ok mux => .ret { s1 with mux := mux } none

/-- Model of `atomic.AddInt32`: addition on the 32-bit signed range. -/
def addInt32 (x d : Int) : Int := (x + d + 2147483648) % 4294967296 - 2147483648

/-- What the environment decides during one call of `Start`: the error `ListenAndServe`
returns, whether a value is ever received from `stopCh`, and the results of `Shutdown`
and `Close`. -/
structure StartEnv where
  listenErr : GoError
  stopArrives : Bool
  shutdownErr : Option GoError
  closeErr : Option GoError

/-- The observable steps of `Start`, in order. -/
inductive Event where
  | listen (addr : String)
  | log (level : String) (msg : String)
  | shutdown (timeout : Int)
  | close
  deriving DecidableEq, Repr

/-- How a call of `Start` ends: it returns, it waits on `stopCh` for ever, or the process
panics; with the server state and the steps taken. -/
inductive StartOutcome where
  | returned (s : httpserver) (trace : List Event)
  | blocked (s : httpserver) (trace : List Event)
  | panicked (s : httpserver) (trace : List Event) (msg : String)

/-- The server state an outcome carries. -/
def StartOutcome.state : StartOutcome → httpserver
  | .returned s _ => s
  | .blocked s _ => s
  | .panicked s _ _ => s

/-- The shutdown sequence of `Start`, from `s.http.Shutdown(ctx)` to the return. -/
def shutdownSequence (s : httpserver) (env : StartEnv) : List Event :=
  Event.shutdown s.opts.ShutdownTimeout ::
    match env.shutdownErr with
    | some err =>
      Event.log "error" "could not shutdown http server." ::
        (if err = GoError.deadlineExceeded then
          Event.log "warn" "Shutdown timeout exceeded. closing http server" :: Event.close ::
            (match env.closeErr with
             | some _ => [Event.log "error" "could not close http connection."]
             | none => [])
         else [])
    | none => [Event.log "info" "Http server shut down"]

/-- Model of `(*httpserver).Start`.  The goroutine running `ListenAndServe` is placed
before the wait on `stopCh`: an error other than `http.ErrServerClosed` reverts the flag
and panics. -/
def Start (s : httpserver) (env : StartEnv) : StartOutcome :=
  if isStarted s then .returned s []
  else
    let s := { s with started := addInt32 s.started 1 }
    match s.mux.Handle "/health" (.func s.opts.HealthFunc) with
    | .error msg => .panicked s [] msg
    | .ok mux =>
      let s := { s with mux := mux }
      match s.mux.Handle "/ready" (.func s.opts.ReadyFunc) with
      | .error msg => .panicked s [] msg
      | .ok mux =>
        let s := { s with mux := mux }
        match s.mux.Handle "/metrics" (.func s.opts.MetricsFunc) with
        | .error msg => .panicked s [] msg
        | .ok mux =>
          let s := { s with mux := mux, http := { s.http with Handler := .mux } }
          if env.listenErr ≠ GoError.errServerClosed then
            .panicked { s with started := addInt32 s.started (-1) }
              [.listen s.http.Addr, .log "error" "Could not start the http server"]
              env.listenErr.Error
          else
            let t := [Event.listen s.http.Addr, Event.log "info" ("Listening on " ++ s.http.Addr)]
            if env.stopArrives then .returned s (t ++ shutdownSequence s env)
            else .blocked s t

/-- Package constants and pprof functions used to evaluate the model on concrete inputs. -/
def samplePkg : Pkg :=
  { PORT := 8080
    HTTP_API_TIMEOUT := 30000000000
    SHUTDOWN_TIMEOUT := 30000000000
    pprofIndex := fun _ w => w
    pprofCmdline := fun _ w => w
    pprofProfile := fun _ w => w
    pprofSymbol := fun _ w => w
    pprofTrace := fun _ w => w }

/-- The all-zero `ServerOptions` value. -/
def zeroOptions : ServerOptions :=
  { HttpAPITimeout := 0, ShutdownTimeout := 0, Port := 0
    HealthFunc := none, ReadyFunc := none, MetricsFunc := none }

/-- A server with an empty mux and an empty route table, as a test double would build it. -/
def bareServer : httpserver :=
  { http := { Addr := ":8080", Handler := .unset }
    mux := NewServeMux
    opts := parseOptions samplePkg zeroOptions
    started := 0
    handlers := GoMap.empty }

/-- An environment in which the listener serves, the stop signal arrives and the graceful
shutdown runs into its deadline. -/
def deadlineEnv : StartEnv :=
  { listenErr := .errServerClosed, stopArrives := true
    shutdownErr := some .deadlineExceeded, closeErr := none }

end apiserver

namespace config

open Go

/-- The struct `ChatGPT`; the duration is in nanoseconds. -/
structure ChatGPT where
  ApiKey : String
  InstructionFilePath : String
  InstructionText : String
  ApiTimeoutSecond : Int
  ApiUrl : String
  Model : String
  deriving DecidableEq, Repr

/-- The struct `Server`. -/
structure Server where
  Port : Int
  deriving DecidableEq, Repr

/-- The struct `Config`, with its two embedded structs as fields. -/
structure Config where
  ChatGPT : ChatGPT
  Server : Server
  deriving DecidableEq, Repr

/-- Model of `(*Config).normalize`; `Except.error` is the panic with its message. -/
def normalize (c : Config) : Except String Config :=
  let c :=
    if c.ChatGPT.ApiTimeoutSecond = 0 then
      { c with ChatGPT := { c.ChatGPT with ApiTimeoutSecond := 1000000000 * 30 } }
    else c
  if c.ChatGPT.InstructionFilePath.utf8ByteSize + c.ChatGPT.InstructionText.utf8ByteSize = 0 then
    .error "Either GPT_INSTRUCTION_FILE_PATH or GPT_INSTRUCTION_TEXT must be provided in the env"
  else .ok c

/-- Model of `LoadConfigOrPanic`; the result of `env.Parse` is an argument. -/
def LoadConfigOrPanic (parsed : Except GoError Config) : Except String Config :=
  match parsed with
  | .error err => .error err.Error
  | .ok c => normalize c

/-- A configuration with neither an instruction file nor an instruction text. -/
def noInstruction : Config :=
  { ChatGPT :=
      { ApiKey := "k", InstructionFilePath := "", InstructionText := ""
        ApiTimeoutSecond := 0, ApiUrl := "u", Model := "m" }
    Server := { Port := 8080 } }

end config

namespace gpt

open Go

/-- The constant `ai.ChatMessageRoleSystem`. -/
def ChatMessageRoleSystem : String := "system"

/-- The constant `ai.ChatMessageRoleUser`. -/
def ChatMessageRoleUser : String := "user"

/-- The constant `ai.ChatMessageRoleAssistant`. -/
def ChatMessageRoleAssistant : String := "assistant"

/-- The fields of `ai.ChatCompletionMessage` the code sets. -/
structure ChatCompletionMessage where
  Role : String
  Content : String
  deriving DecidableEq, Repr

/-- The fields of `ai.ChatCompletionRequest` the code sets. -/
structure ChatCompletionRequest where
  Model : String
  Messages : List ChatCompletionMessage
  Stream : Bool
  deriving DecidableEq, Repr

/-- The struct `Client`; the upstream client is represented by its API key. -/
structure Client where
  client : String
  history : List ChatCompletionMessage
  model : String
  apiUrl : String
  apiTimeout : Int
  deriving DecidableEq, Repr

/-- The struct `Chunk`; `none` is the nil error. -/
structure Chunk where
  Content : String
  Err : Option GoError
  deriving DecidableEq, Repr

/-- One result of `resp.Recv()`: a response with the `Delta.Content` of each of its
choices, or an error. -/
inductive RecvResult where
  | data (choices : List String)
  | err (e : GoError)
  deriving DecidableEq, Repr

/-- An upstream response stream: the results successive `Recv` calls return.  After the last
listed result no further `Recv` returns. -/
abbrev Stream := List RecvResult

/-- Model of `(*Client).instruct`; `readFile` is `ioutil.ReadFile`. -/
def instruct (readFile : String → Except GoError String) (b : Client) (cnf : config.ChatGPT) :
    Except GoError Client :=
  let file : Except GoError String :=
    if cnf.InstructionFilePath.utf8ByteSize > 0 then readFile cnf.InstructionFilePath
    else .ok ""
  match file with
  | .error err => .error err
  | .ok instruct =>
    let instruct := if cnf.InstructionText.utf8ByteSize > 0 then cnf.InstructionText else instruct
    .ok { b with history := b.history ++ [{ Role := ChatMessageRoleSystem, Content := instruct }] }

/-- Model of `NewClient`. -/
def NewClient (readFile : String → Except GoError String) (cnf : config.ChatGPT) :
    Except GoError Client :=
  let client : Client :=
    { client := cnf.ApiKey
      history := []
      model := cnf.Model
      apiUrl := cnf.ApiUrl
      apiTimeout := cnf.ApiTimeoutSecond }
  match instruct readFile client cnf with
  | .error err => .error err
  | .ok client => .ok client

/-- Model of `(*Client).newChatCompletionRequest`: the session after the call and the
request returned. -/
def newChatCompletionRequest (b : Client) (question : String) : Client × ChatCompletionRequest :=
  let b := { b with history := b.history ++ [{ Role := ChatMessageRoleUser, Content := question }] }
  (b, { Model := b.model, Messages := b.history, Stream := true })

/-- What a call of `Prompt` leaves behind when it returns: the session, the request handed
to `CreateChatCompletionStream`, and either the error returned (with a nil channel) or the
response stream the spawned goroutine pulls from (with the channel). -/
structure PromptResult where
  client : Client
  req : ChatCompletionRequest
  ret : Except GoError Stream

/-- Model of `(*Client).Prompt` up to its return; `established` is the result of
`b.client.CreateChatCompletionStream(ctx, req)`. -/
def Prompt (b : Client) (question : String) (established : Except GoError Stream) :
    PromptResult :=
  let (b, req) := newChatCompletionRequest b question
  match established with
  | .error err => { client := b, req := req, ret := .error err }
  | .ok resp => { client := b, req := req, ret := .ok resp }

/-- Model of the closure `writeOnCh`: the chunk reaches the receiver, or the timer fires
first and the chunk is dropped.  `out` is what the receiver has got so far. -/
def writeOnCh (received : Bool) (out : List Chunk) (chk : Chunk) : List Chunk :=
  if received then out ++ [chk] else out

/-- How the pull loop of the goroutine ends: by `break`, by a `Recv` that never returns, or
by the index panic of `data.Choices[0]`. -/
inductive LoopEnd where
  | broke
  | stalled
  | panicked
  deriving DecidableEq, Repr

/-- The state of the goroutine when its loop ends: the string builder, what the receiver
has got, the log lines, and how the loop ended. -/
structure LoopState where
  sb : String
  out : List Chunk
  logs : List String
  ending : LoopEnd
  deriving DecidableEq, Repr

/-- Model of the `for` loop of the goroutine in `Prompt`.  `deliv i` tells whether push
number `i` is received in time. -/
def pullLoop (deliv : Nat → Bool) : Stream → Nat → String → List Chunk → LoopState
  | [], _, sb, out => { sb := sb, out := out, logs := [], ending := .stalled }
  | .err e :: _, i, sb, out =>
    { sb := sb
      out := writeOnCh (deliv i) out { Content := "", Err := some e }
      logs := if e = GoError.eof then [] else ["stream error"]
      ending := .broke }
  | .data [] :: _, _, sb, out => { sb := sb, out := out, logs := [], ending := .panicked }
  | .data (respChunk :: _) :: rest, i, sb, out =>
    pullLoop deliv rest (i + 1) (sb ++ respChunk)
      (writeOnCh (deliv i) out { Content := respChunk, Err := none })

/-- The goroutine of one established `Prompt` call, run to its end: the session afterwards,
the chunks the receiver got, whether the channel was closed, and how the loop ended. -/
structure RelayResult where
  client : Client
  delivered : List Chunk
  closed : Bool
  logs : List String
  ending : LoopEnd
  deriving DecidableEq, Repr

/-- Model of the goroutine started by `Prompt`. -/
def relay (b : Client) (resp : Stream) (deliv : Nat → Bool) : RelayResult :=
  let st := pullLoop deliv resp 0 "" []
  match st.ending with
  | .broke =>
    { client :=
        { b with history := b.history ++ [{ Role := ChatMessageRoleAssistant, Content := st.sb }] }
      delivered := st.out, closed := true, logs := st.logs, ending := .broke }
  | .stalled => { client := b, delivered := st.out, closed := false, logs := st.logs, ending := .stalled }
  | .panicked => { client := b, delivered := st.out, closed := true, logs := st.logs, ending := .panicked }

/-- An upstream stream that yields the given responses (each with a first choice and any
further choices) and then the terminal error. -/
def streamOf (frags : List (String × List String)) (e : GoError) : Stream :=
  frags.map (fun f => RecvResult.data (f.1 :: f.2)) ++ [RecvResult.err e]

/-- The concatenation, in order, of the first-choice contents of the given responses. -/
def contentOf (frags : List (String × List String)) : String :=
  String.join (frags.map (fun f => f.1))

/-- The session after one `Prompt` call and, when the call was established, after its
goroutine has run to completion. -/
def clientAfter (b : Client) (question : String) (established : Except GoError Stream)
    (deliv : Nat → Bool) : Client :=
  let p := Prompt b question established
  match p.ret with
  | .error _ => p.client
  | .ok resp => (relay p.client resp deliv).client

/-- Whether a history is a System turn followed by turns alternating User, Assistant. -/
def alternates : Bool → List ChatCompletionMessage → Bool
  | _, [] => true
  | expectUser, m :: rest =>
    (m.Role == (if expectUser then ChatMessageRoleUser else ChatMessageRoleAssistant))
      && alternates (!expectUser) rest

/-- The history shape: first turn System, then User, Assistant, User, ... -/
def wellFormedHistory : List ChatCompletionMessage → Bool
  | [] => false
  | m :: rest => (m.Role == ChatMessageRoleSystem) && alternates true rest

/-- A `ReadFile` that finds no file. -/
def noFiles : String → Except GoError String :=
  fun _ => .error (.other "no such file or directory")

/-- A configuration whose instruction text is `S`. -/
def textConfig (S : String) : config.ChatGPT :=
  { ApiKey := "k", InstructionFilePath := "", InstructionText := S
    ApiTimeoutSecond := 30000000000, ApiUrl := "u", Model := "m" }

/-- The session `NewClient` builds from `textConfig "S"`. -/
def sampleClient : Client :=
  { client := "k", history := [{ Role := ChatMessageRoleSystem, Content := "S" }]
    model := "m", apiUrl := "u", apiTimeout := 30000000000 }

end gpt

namespace Main

open Go gpt

/-- The channel as the handler sees it: nil, or the values it receives and whether the
channel is closed after them. -/
structure Channel where
  values : List Chunk
  closed : Bool

/-- How the `for ch := range chunks` loop ends: it leaves the loop with the builder
content, or it waits for a value that never comes. -/
inductive RangeResult where
  | done (sb : String)
  | blocked (sb : String)
  deriving DecidableEq, Repr

/-- Model of the loop `for ch := range chunks` of the `/prompt` handler on a non-nil
channel. -/
def rangeChunks : List Chunk → Bool → String → RangeResult
  | [], closed, sb => if closed then .done sb else .blocked sb
  | ch :: rest, closed, sb =>
    if ch.Err = some GoError.eof then .done sb
    else
      match ch.Err with
      | some e => .done (sb ++ e.Error)
      | none => rangeChunks rest closed (sb ++ ch.Content)

/-- How the handler ends: it returns, or it blocks for ever; with the response writer. -/
inductive HandlerOutcome where
  | finished (w : ResponseWriter)
  | blocked (w : ResponseWriter)

/-- Model of the handler from `sb := strings.Builder{}` to its end.  `none` is the nil
channel, on which `range` blocks for ever. -/
def drainAndRespond (w : ResponseWriter) (chunks : Option Channel) : HandlerOutcome :=
  match chunks with
  | none => .blocked w
  | some c =>
    match rangeChunks c.values c.closed "" with
    | .blocked _ => .blocked w
    | .done sb =>
      let w := w.HeaderSet "Content-Type" "text/plain"
      let w := w.WriteHeader 200
      .finished (w.Write sb)

/-- Model of the `/prompt` handler: the session it leaves and how the handler ends.
`established` is the result of the upstream call, `deliv` the fate of each push. -/
def promptHandler (gptClient : Client) (r : Request) (established : Except GoError Stream)
    (deliv : Nat → Bool) (w : ResponseWriter) : Client × HandlerOutcome :=
  let p := Prompt gptClient r.Body established
  match p.ret with
  | .error err =>
    let w := httpError w err.Error 500
    (p.client, drainAndRespond w none)
  | .ok resp =>
    let rr := relay p.client resp deliv
    (rr.client, drainAndRespond w (some { values := rr.delivered, closed := rr.closed }))

end Main

/-! ## Auxiliary lemmas -/

namespace Go

theorem GoMap.set_same {V : Type} (m : GoMap V) (k : String) (v : V) : m.set k v k = some v := by
  simp [GoMap.set]

theorem GoMap.set_other {V : Type} (m : GoMap V) (k q : String) (v : V) (h : q ≠ k) :
    m.set k v q = m q := by
  simp [GoMap.set, h]

theorem foldl_append_acc (l : List String) (acc : String) :
    l.foldl (fun r s => r ++ s) acc = acc ++ l.foldl (fun r s => r ++ s) "" := by
  induction l generalizing acc with
  | nil => simp
  | cons a l ih =>
    simp only [List.foldl_cons]
    rw [ih (acc ++ a), ih ("" ++ a), String.empty_append, String.append_assoc]

theorem join_cons (a : String) (l : List String) : String.join (a :: l) = a ++ String.join l := by
  unfold String.join
  simp only [List.foldl_cons]
  rw [foldl_append_acc, String.empty_append]

theorem join_nil : String.join [] = "" := rfl

end Go

namespace gpt

open Go

theorem contentOf_cons (f : String × List String) (frags : List (String × List String)) :
    contentOf (f :: frags) = f.1 ++ contentOf frags := by
  simp [contentOf, join_cons]

theorem pullLoop_frags (deliv : Nat → Bool) (frags : List (String × List String)) (e : GoError)
    (rest : Stream) : ∀ (i : Nat) (sb : String) (out : List Chunk),
    (pullLoop deliv (streamOf frags e ++ rest) i sb out).sb = sb ++ contentOf frags ∧
    (pullLoop deliv (streamOf frags e ++ rest) i sb out).ending = LoopEnd.broke := by
  induction frags with
  | nil =>
    intro i sb out
    simp [streamOf, pullLoop, contentOf, join_nil]
  | cons f frags ih =>
    intro i sb out
    have h := ih (i + 1) (sb ++ f.1) (writeOnCh (deliv i) out { Content := f.1, Err := none })
    simp only [streamOf, List.map_cons, List.cons_append, pullLoop] at h ⊢
    rw [contentOf_cons, ← String.append_assoc]
    exact h

theorem relay_history (b : Client) (frags : List (String × List String)) (e : GoError)
    (rest : Stream) (deliv : Nat → Bool) :
    relay b (streamOf frags e ++ rest) deliv =
      { client :=
          { b with
            history :=
              b.history ++ [{ Role := ChatMessageRoleAssistant, Content := contentOf frags }] }
        delivered := (pullLoop deliv (streamOf frags e ++ rest) 0 "" []).out
        closed := true
        logs := (pullLoop deliv (streamOf frags e ++ rest) 0 "" []).logs
        ending := LoopEnd.broke } := by
  have h := pullLoop_frags deliv frags e rest 0 "" []
  unfold relay
  simp only [h.2, h.1, String.empty_append]

theorem relay_history_nil (b : Client) (frags : List (String × List String)) (e : GoError)
    (deliv : Nat → Bool) :
    relay b (streamOf frags e) deliv =
      { client :=
          { b with
            history :=
              b.history ++ [{ Role := ChatMessageRoleAssistant, Content := contentOf frags }] }
        delivered := (pullLoop deliv (streamOf frags e) 0 "" []).out
        closed := true
        logs := (pullLoop deliv (streamOf frags e) 0 "" []).logs
        ending := LoopEnd.broke } := by
  have h := relay_history b frags e [] deliv
  rw [List.append_nil] at h
  exact h

end gpt

/-! ## Route registration -/

namespace apiserver

open Go

theorem NewHttpServer_eq (pkg : Pkg) (opts : ServerOptions) :
    NewHttpServer pkg opts =
      .ok { http := { Addr := ":" ++ toString (parseOptions pkg opts).Port, Handler := .unset }
            mux :=
              { m := ((((GoMap.empty.set "/debug/pprof/" (.func (some pkg.pprofIndex))).set
                  "/debug/pprof/cmdline" (.func (some pkg.pprofCmdline))).set
                  "/debug/pprof/profile" (.func (some pkg.pprofProfile))).set
                  "/debug/pprof/symbol" (.func (some pkg.pprofSymbol))).set
                  "/debug/pprof/trace" (.func (some pkg.pprofTrace)) }
            opts := parseOptions pkg opts
            started := 0
            handlers := GoMap.empty } := by
  simp [NewHttpServer, ServeMux.Handle, NewServeMux, GoMap.has, GoMap.set, GoMap.empty, bind,
    Except.bind, pure, Except.pure]

theorem NewHttpServer_ok (pkg : Pkg) (opts : ServerOptions) :
    ∃ s, NewHttpServer pkg opts = .ok s ∧ s.opts = parseOptions pkg opts ∧ s.started = 0 ∧
      s.handlers = GoMap.empty ∧ s.mux.m.has "/debug/pprof/" = true := by
  refine ⟨_, NewHttpServer_eq pkg opts, rfl, rfl, rfl, ?_⟩
  simp [GoMap.has, GoMap.set]

/-- C1, as amended.  A pattern already in the route table is rejected by `Handle` and by
`HandleFunc` with the "already registered" error and the server state is returned
unchanged.  A non-empty pattern that is neither in the route table nor in the router is
accepted with a non-nil handler: the call returns nil, the route table and the router map
the pattern to the given handler, and every other entry of both is as before. -/
theorem Handle_rejects_duplicate_accepts_new (s : httpserver) (p : String) :
    (isHandled s p = true →
      (∀ h2 : Handler, Handle s p h2 = .ret s (some (alreadyRegistered p))) ∧
      (∀ f2 : HandlerFunc, HandleFunc s p f2 = .ret s (some (alreadyRegistered p)))) ∧
    (isHandled s p = false → p ≠ "" → s.mux.m p = none →
      (∀ f : HandlerFunc, ∃ s2, Handle s p (.func f) = .ret s2 none ∧
        s2.handlers p = some (.func f) ∧ (∀ q, q ≠ p → s2.handlers q = s.handlers q) ∧
        s2.mux.m p = some (.func f) ∧ (∀ q, q ≠ p → s2.mux.m q = s.mux.m q)) ∧
      (∀ r : Responder, ∃ s2, HandleFunc s p (some r) = .ret s2 none ∧
        s2.handlers p = some (.func (some r)) ∧ (∀ q, q ≠ p → s2.handlers q = s.handlers q) ∧
        s2.mux.m p = some (.func (some r)) ∧ (∀ q, q ≠ p → s2.mux.m q = s.mux.m q))) := by
  refine ⟨fun h => ⟨fun h2 => ?_, fun f2 => ?_⟩, fun h hp hm => ⟨fun f => ?_, fun r => ?_⟩⟩
  · simp [Handle, h]
  · simp [HandleFunc, h]
  · refine ⟨{ s with handlers := s.handlers.set p (.func f)
                     mux := { m := s.mux.m.set p (.func f) } }, ?_,
      GoMap.set_same _ _ _, fun q hq => GoMap.set_other _ _ _ _ hq,
      GoMap.set_same _ _ _, fun q hq => GoMap.set_other _ _ _ _ hq⟩
    simp [Handle, h, ServeMux.Handle, hp, GoMap.has, hm]
  · refine ⟨{ s with handlers := s.handlers.set p (.func (some r))
                     mux := { m := s.mux.m.set p (.func (some r)) } }, ?_,
      GoMap.set_same _ _ _, fun q hq => GoMap.set_other _ _ _ _ hq,
      GoMap.set_same _ _ _, fun q hq => GoMap.set_other _ _ _ _ hq⟩
    simp [HandleFunc, h, ServeMux.HandleFunc, ServeMux.Handle, hp, GoMap.has, hm]

/-- C1, use of the amended statement: on a server with an empty router, `/prompt` is
accepted once and rejected the second time. -/
theorem Handle_rejects_duplicate_accepts_new_witness :
    (isHandled bareServer "/prompt" = false ∧ "/prompt" ≠ "" ∧
      bareServer.mux.m "/prompt" = none ∧
      ∃ s2, HandleFunc bareServer "/prompt" (some defaultResponder) = .ret s2 none ∧
        s2.handlers "/prompt" = some (.func (some defaultResponder))) ∧
    (isHandled { bareServer with handlers := bareServer.handlers.set "/prompt" Handler.nil }
        "/prompt" = true ∧
      Handle { bareServer with handlers := bareServer.handlers.set "/prompt" Handler.nil }
        "/prompt" (.func none) =
        .ret { bareServer with handlers := bareServer.handlers.set "/prompt" Handler.nil }
          (some (alreadyRegistered "/prompt"))) := by
  have hfalse : isHandled bareServer "/prompt" = false := rfl
  have hne : "/prompt" ≠ "" := by decide
  have hmux : bareServer.mux.m "/prompt" = none := rfl
  have htrue :
      isHandled { bareServer with handlers := bareServer.handlers.set "/prompt" Handler.nil }
        "/prompt" = true := by
    simp [isHandled, GoMap.has, GoMap.set]
  refine ⟨⟨hfalse, hne, hmux, ?_⟩, htrue, ?_⟩
  · obtain ⟨s2, h1, h2, _⟩ :=
      ((Handle_rejects_duplicate_accepts_new bareServer "/prompt").2 hfalse hne hmux).2
        defaultResponder
    exact ⟨s2, h1, h2⟩
  · exact ((Handle_rejects_duplicate_accepts_new _ "/prompt").1 htrue).1 (.func none)

/-- C1, counterexample.  On the server `NewHttpServer` builds, the pattern `/debug/pprof/`
is not in the route table, yet neither `Handle` nor `HandleFunc` returns nil for it: the
router already holds the pattern and the call panics. -/
theorem Handle_unlisted_pattern_not_accepted :
    ∃ s, NewHttpServer samplePkg zeroOptions = .ok s ∧
      isHandled s "/debug/pprof/" = false ∧
      Handle s "/debug/pprof/" (.func (some defaultResponder)) =
        .panicked
          { s with handlers := s.handlers.set "/debug/pprof/" (.func (some defaultResponder)) }
          "http: multiple registrations for /debug/pprof/" ∧
      (∀ s2, Handle s "/debug/pprof/" (.func (some defaultResponder)) ≠ .ret s2 none) ∧
      (∀ s2, HandleFunc s "/debug/pprof/" (some defaultResponder) ≠ .ret s2 none) := by
  obtain ⟨s, hs, -, -, hh, hm⟩ := NewHttpServer_ok samplePkg zeroOptions
  have hnot : isHandled s "/debug/pprof/" = false := by
    simp [isHandled, hh, GoMap.has, GoMap.empty]
  have hne : ("/debug/pprof/" : String) ≠ "" := by decide
  refine ⟨s, hs, hnot, ?_, ?_, ?_⟩
  · simp [Handle, hnot, ServeMux.Handle, hne, hm]
  · intro s2
    simp [Handle, hnot, ServeMux.Handle, hne, hm]
  · intro s2
    simp [HandleFunc, hnot, ServeMux.HandleFunc, ServeMux.Handle, hne, hm]

end apiserver

/-! ## Session construction and history -/

namespace gpt

open Go

/-- C2, as amended.  For every configuration in which both `InstructionFilePath` and
`InstructionText` are empty, `Config.normalize` panics, so `LoadConfigOrPanic` hands no
such configuration on; `NewClient` itself has no such check: on such a configuration it
returns, without any upstream call, a client whose history is the single System turn with
empty content. -/
theorem normalize_rejects_missing_instruction (readFile : String → Except GoError String)
    (c : config.Config) (hpath : c.ChatGPT.InstructionFilePath = "")
    (htext : c.ChatGPT.InstructionText = "") :
    config.normalize c =
      .error "Either GPT_INSTRUCTION_FILE_PATH or GPT_INSTRUCTION_TEXT must be provided in the env" ∧
    config.LoadConfigOrPanic (.ok c) =
      .error "Either GPT_INSTRUCTION_FILE_PATH or GPT_INSTRUCTION_TEXT must be provided in the env" ∧
    NewClient readFile c.ChatGPT =
      .ok { client := c.ChatGPT.ApiKey
            history := [{ Role := ChatMessageRoleSystem, Content := "" }]
            model := c.ChatGPT.Model
            apiUrl := c.ChatGPT.ApiUrl
            apiTimeout := c.ChatGPT.ApiTimeoutSecond } := by
  have hz : ("" : String).utf8ByteSize = 0 := rfl
  have hn : config.normalize c =
      .error "Either GPT_INSTRUCTION_FILE_PATH or GPT_INSTRUCTION_TEXT must be provided in the env" := by
    unfold config.normalize
    by_cases h0 : c.ChatGPT.ApiTimeoutSecond = 0 <;> simp [h0, hpath, htext, hz]
  refine ⟨hn, ?_, ?_⟩
  · simp [config.LoadConfigOrPanic, hn]
  · simp [NewClient, instruct, hpath, htext, hz]

/-- C2, use of the amended statement at a configuration with no instruction at all. -/
theorem normalize_rejects_missing_instruction_witness :
    config.noInstruction.ChatGPT.InstructionFilePath = "" ∧
    config.noInstruction.ChatGPT.InstructionText = "" ∧
    config.normalize config.noInstruction =
      .error "Either GPT_INSTRUCTION_FILE_PATH or GPT_INSTRUCTION_TEXT must be provided in the env" :=
  ⟨rfl, rfl, (normalize_rejects_missing_instruction noFiles config.noInstruction rfl rfl).1⟩

/-- C2, counterexample.  With both `InstructionFilePath` and `InstructionText` empty,
`NewClient` returns a client and a nil error. -/
theorem NewClient_accepts_missing_instruction :
    config.noInstruction.ChatGPT.InstructionFilePath = "" ∧
    config.noInstruction.ChatGPT.InstructionText = "" ∧
    NewClient noFiles config.noInstruction.ChatGPT =
      .ok { client := "k"
            history := [{ Role := ChatMessageRoleSystem, Content := "" }]
            model := "m", apiUrl := "u", apiTimeout := 0 } ∧
    ¬ ∃ err, NewClient noFiles config.noInstruction.ChatGPT = .error err := by
  have h0 : NewClient noFiles config.noInstruction.ChatGPT =
      .ok { client := "k"
            history := [{ Role := ChatMessageRoleSystem, Content := "" }]
            model := "m", apiUrl := "u", apiTimeout := 0 } := rfl
  refine ⟨rfl, rfl, h0, ?_⟩
  rintro ⟨err, h⟩
  rw [h0] at h
  cases h

theorem clientAfter_established (b : Client) (q : String) (frags : List (String × List String))
    (e : GoError) (rest : Stream) (deliv : Nat → Bool) :
    (clientAfter b q (.ok (streamOf frags e ++ rest)) deliv).history =
      b.history ++ [{ Role := ChatMessageRoleUser, Content := q },
        { Role := ChatMessageRoleAssistant, Content := contentOf frags }] := by
  simp [clientAfter, Prompt, newChatCompletionRequest, relay_history]

/-- C3.  From a session whose history is the single System turn `S`, two successive
established `Prompt` calls with questions `Q1`, `Q2`, each run to the end of an upstream
stream that yields fragments and then end-of-stream, leave the history
`[System S, User Q1, Assistant A1, User Q2, Assistant A2]`, where `A1`, `A2` are the
concatenated fragments; both goroutines reach the end of their loop, and the request of
the second call carries `[System S, User Q1, Assistant A1, User Q2]`, the session model and
the streaming flag. -/
theorem history_accumulation (b : Client) (S Q1 Q2 : String)
    (fr1 fr2 : List (String × List String)) (d1 d2 : Nat → Bool)
    (hb : b.history = [{ Role := ChatMessageRoleSystem, Content := S }]) :
    (relay (Prompt b Q1 (.ok (streamOf fr1 .eof))).client (streamOf fr1 .eof) d1).ending
      = LoopEnd.broke ∧
    (relay (Prompt (clientAfter b Q1 (.ok (streamOf fr1 .eof)) d1) Q2
        (.ok (streamOf fr2 .eof))).client (streamOf fr2 .eof) d2).ending = LoopEnd.broke ∧
    (clientAfter (clientAfter b Q1 (.ok (streamOf fr1 .eof)) d1) Q2
        (.ok (streamOf fr2 .eof)) d2).history =
      [{ Role := ChatMessageRoleSystem, Content := S },
       { Role := ChatMessageRoleUser, Content := Q1 },
       { Role := ChatMessageRoleAssistant, Content := contentOf fr1 },
       { Role := ChatMessageRoleUser, Content := Q2 },
       { Role := ChatMessageRoleAssistant, Content := contentOf fr2 }] ∧
    (Prompt (clientAfter b Q1 (.ok (streamOf fr1 .eof)) d1) Q2 (.ok (streamOf fr2 .eof))).req =
      { Model := b.model
        Messages :=
          [{ Role := ChatMessageRoleSystem, Content := S },
           { Role := ChatMessageRoleUser, Content := Q1 },
           { Role := ChatMessageRoleAssistant, Content := contentOf fr1 },
           { Role := ChatMessageRoleUser, Content := Q2 }]
        Stream := true } := by
  have e1 : streamOf fr1 GoError.eof = streamOf fr1 GoError.eof ++ [] := by simp
  have e2 : streamOf fr2 GoError.eof = streamOf fr2 GoError.eof ++ [] := by simp
  have h1 := clientAfter_established b Q1 fr1 .eof [] d1
  rw [← e1] at h1
  have h2 := clientAfter_established (clientAfter b Q1 (.ok (streamOf fr1 .eof)) d1) Q2 fr2
    .eof [] d2
  rw [← e2] at h2
  have hm : (clientAfter b Q1 (.ok (streamOf fr1 .eof)) d1).model = b.model := by
    simp [clientAfter, Prompt, newChatCompletionRequest, relay_history_nil]
  refine ⟨?_, ?_, ?_, ?_⟩
  · rw [e1, relay_history]
  · rw [e2, relay_history]
  · rw [h2, h1, hb]
    rfl
  · simp [Prompt, newChatCompletionRequest, h1, hb, hm]

/-- C3, use at the session `NewClient` builds from the instruction text `S`, with the
completions `4` (one fragment) and `it is 6` (two fragments). -/
theorem history_accumulation_witness :
    NewClient noFiles (textConfig "S") = .ok sampleClient ∧
    sampleClient.history = [{ Role := ChatMessageRoleSystem, Content := "S" }] ∧
    (clientAfter (clientAfter sampleClient "2+2?" (.ok (streamOf [("4", [])] .eof))
        (fun _ => true)) "3+3?" (.ok (streamOf [("it is ", []), ("6", [])] .eof))
        (fun _ => false)).history =
      [{ Role := ChatMessageRoleSystem, Content := "S" },
       { Role := ChatMessageRoleUser, Content := "2+2?" },
       { Role := ChatMessageRoleAssistant, Content := "4" },
       { Role := ChatMessageRoleUser, Content := "3+3?" },
       { Role := ChatMessageRoleAssistant, Content := "it is 6" }] :=
  ⟨rfl, rfl,
    (history_accumulation sampleClient "S" "2+2?" "3+3?" [("4", [])] [("it is ", []), ("6", [])]
      (fun _ => true) (fun _ => false) rfl).2.2.1⟩

/-- C7.  The goroutine of an established `Prompt` call, on any upstream stream that yields
responses (each with a first choice) and then a terminal error, reaches the end of its
loop, closes the channel, and appends exactly one Assistant turn whose content is the
concatenation, in upstream order, of the first-choice contents pulled before the error;
this for every pattern `deliv` of delivered and dropped pushes and for every terminal
error `e`, end-of-stream or not.  The whole call thus extends the history by the User turn
and that Assistant turn. -/
theorem relay_appends_one_assistant_turn (b : Client) (q : String)
    (frags : List (String × List String)) (e : GoError) (rest : Stream) (deliv : Nat → Bool) :
    (relay b (streamOf frags e ++ rest) deliv).ending = LoopEnd.broke ∧
    (relay b (streamOf frags e ++ rest) deliv).closed = true ∧
    (relay b (streamOf frags e ++ rest) deliv).client.history =
      b.history ++ [{ Role := ChatMessageRoleAssistant, Content := contentOf frags }] ∧
    (Prompt b q (.ok (streamOf frags e ++ rest))).ret = .ok (streamOf frags e ++ rest) ∧
    (clientAfter b q (.ok (streamOf frags e ++ rest)) deliv).history =
      b.history ++ [{ Role := ChatMessageRoleUser, Content := q },
        { Role := ChatMessageRoleAssistant, Content := contentOf frags }] := by
  refine ⟨?_, ?_, ?_, ?_, clientAfter_established b q frags e rest deliv⟩
  · rw [relay_history]
  · rw [relay_history]
  · rw [relay_history]
  · simp [Prompt, newChatCompletionRequest]

/-- C8, the code at the failing input.  From the session `NewClient` builds, a `Prompt`
call that fails to be established leaves its User turn in the history, so a second
`Prompt` call (here failing as well, or established and run to its end) produces two
consecutive User turns: the history no longer alternates. -/
theorem failed_prompt_breaks_alternation :
    NewClient noFiles (textConfig "S") = .ok sampleClient ∧
    (clientAfter (clientAfter sampleClient "Q1" (.error (.other "connection refused"))
        (fun _ => true)) "Q2" (.error (.other "connection refused")) (fun _ => true)).history =
      [{ Role := ChatMessageRoleSystem, Content := "S" },
       { Role := ChatMessageRoleUser, Content := "Q1" },
       { Role := ChatMessageRoleUser, Content := "Q2" }] ∧
    wellFormedHistory
      (clientAfter (clientAfter sampleClient "Q1" (.error (.other "connection refused"))
        (fun _ => true)) "Q2" (.error (.other "connection refused")) (fun _ => true)).history
      = false ∧
    (clientAfter (clientAfter sampleClient "Q1" (.error (.other "connection refused"))
        (fun _ => true)) "Q2" (.ok (streamOf [("A2", [])] .eof)) (fun _ => true)).history =
      [{ Role := ChatMessageRoleSystem, Content := "S" },
       { Role := ChatMessageRoleUser, Content := "Q1" },
       { Role := ChatMessageRoleUser, Content := "Q2" },
       { Role := ChatMessageRoleAssistant, Content := "A2" }] ∧
    wellFormedHistory
      (clientAfter (clientAfter sampleClient "Q1" (.error (.other "connection refused"))
        (fun _ => true)) "Q2" (.ok (streamOf [("A2", [])] .eof)) (fun _ => true)).history
      = false := by
  refine ⟨rfl, rfl, ?_, rfl, ?_⟩ <;> decide

end gpt

/-! ## The `/prompt` handler -/

namespace Main

open Go gpt

theorem rangeChunks_content (cs : List String) (ch : Chunk) (rest : List Chunk) (closed : Bool) :
    ∀ sb : String,
      rangeChunks (cs.map (fun c => ({ Content := c, Err := none } : Chunk)) ++ ch :: rest)
        closed sb = rangeChunks (ch :: rest) closed (sb ++ String.join cs) := by
  induction cs with
  | nil => intro sb; simp [join_nil]
  | cons c cs ih =>
    intro sb
    simp only [List.map_cons, List.cons_append]
    rw [rangeChunks]
    simp only [reduceCtorEq, if_false]
    rw [ih, join_cons, String.append_assoc]

theorem drainAndRespond_done (c : Channel) (sb : String)
    (h : rangeChunks c.values c.closed "" = .done sb) :
    drainAndRespond ResponseWriter.fresh (some c) =
      .finished
        (((ResponseWriter.fresh.HeaderSet "Content-Type" "text/plain").WriteHeader 200).Write sb) := by
  simp [drainAndRespond, h]

theorem okResponse_fields (sb : String) :
    (((ResponseWriter.fresh.HeaderSet "Content-Type" "text/plain").WriteHeader 200).Write
        sb).status = some 200 ∧
    (((ResponseWriter.fresh.HeaderSet "Content-Type" "text/plain").WriteHeader 200).Write
        sb).sent "Content-Type" = some "text/plain" ∧
    (((ResponseWriter.fresh.HeaderSet "Content-Type" "text/plain").WriteHeader 200).Write
        sb).body = sb := by
  simp [ResponseWriter.Write, ResponseWriter.WriteHeader, ResponseWriter.HeaderSet,
    ResponseWriter.fresh, GoMap.set]

/-- C4, the code on the failing path.  When the upstream call is not established, `Prompt`
returns the error and no channel; the handler writes status 500 and the error message
(followed by a newline) through `http.Error`, does not return, and then ranges over the nil
channel: it blocks for ever and never finishes. -/
theorem prompt_handler_blocks_when_not_established (gptClient : Client) (r : Request)
    (err : GoError) (deliv : Nat → Bool) :
    (Prompt gptClient r.Body (.error err)).ret = .error err ∧
    (promptHandler gptClient r (.error err) deliv ResponseWriter.fresh).2 =
      .blocked (httpError ResponseWriter.fresh err.Error 500) ∧
    (httpError ResponseWriter.fresh err.Error 500).status = some 500 ∧
    (httpError ResponseWriter.fresh err.Error 500).body = err.Error ++ "\n" ∧
    ∀ w, (promptHandler gptClient r (.error err) deliv ResponseWriter.fresh).2 ≠ .finished w := by
  refine ⟨rfl, rfl, rfl, ?_, ?_⟩
  · simp [httpError, ResponseWriter.Write, ResponseWriter.WriteHeader, ResponseWriter.HeaderSet,
      ResponseWriter.fresh]
  · intro w h
    have h2 : (promptHandler gptClient r (.error err) deliv ResponseWriter.fresh).2 =
        .blocked (httpError ResponseWriter.fresh err.Error 500) := rfl
    rw [h2] at h
    cases h

/-- C5.  On a fresh response writer, when the handler receives content fragments
`c1..cn` and then an end-of-stream fragment, it finishes with status 200, the header
`Content-Type: text/plain` and body `c1 ++ ... ++ cn`; when the terminal fragment carries
an error `e` other than end-of-stream, the body is `c1 ++ ... ++ cn ++ e.Error()`.  In
particular the fragments `4`, end-of-stream give body `4`, also through the whole handler
for the request body `2+2?` against an upstream that streams `4` and ends. -/
theorem prompt_handler_aggregates (cs : List String) (t : String) (closed : Bool) :
    (∃ w, drainAndRespond ResponseWriter.fresh
        (some { values := cs.map (fun c => ({ Content := c, Err := none } : Chunk)) ++
                  [{ Content := t, Err := some GoError.eof }]
                closed := closed }) = .finished w ∧
      w.status = some 200 ∧ w.sent "Content-Type" = some "text/plain" ∧
      w.body = String.join cs) ∧
    (∀ e : GoError, e ≠ GoError.eof →
      ∃ w, drainAndRespond ResponseWriter.fresh
        (some { values := cs.map (fun c => ({ Content := c, Err := none } : Chunk)) ++
                  [{ Content := t, Err := some e }]
                closed := closed }) = .finished w ∧
      w.status = some 200 ∧ w.sent "Content-Type" = some "text/plain" ∧
      w.body = String.join cs ++ e.Error) ∧
    (∃ w, drainAndRespond ResponseWriter.fresh
        (some { values := [{ Content := "4", Err := none }, { Content := "", Err := some GoError.eof }]
                closed := closed }) = .finished w ∧
      w.status = some 200 ∧ w.sent "Content-Type" = some "text/plain" ∧ w.body = "4") ∧
    (∃ w, (promptHandler sampleClient { Body := "2+2?" } (.ok (streamOf [("4", [])] .eof))
        (fun _ => true) ResponseWriter.fresh).2 = .finished w ∧
      w.status = some 200 ∧ w.sent "Content-Type" = some "text/plain" ∧ w.body = "4") := by
  refine ⟨?_, ?_, ?_, ?_⟩
  · refine ⟨_, drainAndRespond_done _ (String.join cs) ?_, okResponse_fields _⟩
    simp only [rangeChunks_content, rangeChunks, if_true, String.empty_append]
  · intro e he
    have hne : ¬ (some e = some GoError.eof) := by
      intro h
      exact he (Option.some.inj h)
    refine ⟨_, drainAndRespond_done _ (String.join cs ++ e.Error) ?_, okResponse_fields _⟩
    simp only [rangeChunks_content, rangeChunks, hne, if_false, String.empty_append]
  · refine ⟨_, drainAndRespond_done _ "4" ?_, okResponse_fields _⟩
    simp [rangeChunks]
  · exact ⟨_, rfl, okResponse_fields _⟩

/-- C5, use of the error branch: fragments `half`, `way` and then an upstream error
`reset` give the body `halfwayreset`. -/
theorem prompt_handler_aggregates_witness :
    GoError.other "reset" ≠ GoError.eof ∧
    ∃ w, drainAndRespond ResponseWriter.fresh
        (some { values := [{ Content := "half", Err := none }, { Content := "way", Err := none },
                           { Content := "", Err := some (GoError.other "reset") }]
                closed := true }) = .finished w ∧
      w.status = some 200 ∧ w.sent "Content-Type" = some "text/plain" ∧
      w.body = "halfwayreset" := by
  refine ⟨by decide, ?_⟩
  obtain ⟨w, h1, h2, h3, h4⟩ :=
    (prompt_handler_aggregates ["half", "way"] "" true).2.1 (GoError.other "reset") (by decide)
  refine ⟨w, h1, h2, h3, ?_⟩
  rw [h4]
  decide

end Main

/-! ## Options and life cycle -/

namespace apiserver

open Go

theorem parseOptions_MetricsFunc (pkg : Pkg) (opts : ServerOptions) :
    (parseOptions pkg opts).MetricsFunc = opts.MetricsFunc := by
  unfold parseOptions
  simp only []
  repeat' split
  all_goals rfl

/-- C6, the code at the failing input.  `parseOptions` never touches `MetricsFunc`: on the
all-zero options `HealthFunc` and `ReadyFunc` become the default responder, which writes
status 200 and no body, while `MetricsFunc` stays nil, also in the server
`NewHttpServer` builds, and `Start` then installs that nil func at `/metrics`. -/
theorem parseOptions_leaves_MetricsFunc_nil (pkg : Pkg) :
    (parseOptions pkg zeroOptions).HealthFunc = some defaultResponder ∧
    (parseOptions pkg zeroOptions).ReadyFunc = some defaultResponder ∧
    (∀ r : Request, (defaultResponder r ResponseWriter.fresh).status = some 200 ∧
      (defaultResponder r ResponseWriter.fresh).body = "") ∧
    (parseOptions pkg zeroOptions).MetricsFunc = none ∧
    (∀ opts : ServerOptions, (parseOptions pkg opts).MetricsFunc = opts.MetricsFunc) ∧
    (∃ s, NewHttpServer pkg zeroOptions = .ok s ∧ s.opts.MetricsFunc = none ∧
      ∀ env : StartEnv, (Start s env).state.mux.m "/metrics" = some (.func none)) := by
  refine ⟨rfl, rfl, fun r => ⟨rfl, rfl⟩, rfl, parseOptions_MetricsFunc pkg, ?_⟩
  refine ⟨_, NewHttpServer_eq pkg zeroOptions, rfl, ?_⟩
  intro env
  have hm : (parseOptions pkg zeroOptions).MetricsFunc = none := rfl
  by_cases hl : env.listenErr = GoError.errServerClosed <;> cases hstop : env.stopArrives <;>
    simp [Start, isStarted, ServeMux.Handle, GoMap.has, GoMap.set, GoMap.empty,
      StartOutcome.state, hl, hstop, hm]

theorem Start_started (s : httpserver) (env : StartEnv) (h : s.started = 1) :
    Start s env = .returned s [] := by
  simp [Start, isStarted, h]

theorem Start_first_sets_flag (s : httpserver) (env : StartEnv) (h0 : s.started = 0)
    (hl : env.listenErr = GoError.errServerClosed) : (Start s env).state.started = 1 := by
  have h1 : addInt32 0 1 = 1 := by decide
  unfold Start
  simp only [isStarted, h0, hl]
  repeat' split
  all_goals first
    | exact h1
    | (exfalso; simp_all)

/-- C9.  On a server whose started flag is 1, `Start` returns at once with the server
state unchanged (flag, router, installed handler) and without any step: no listener is
opened, whatever the environment.  On a server whose flag is 0 and whose listener serves
until it is shut down, the flag is 1 when `Start` ends, however it ends, and a further
`Start` on that state is again the no-op: the flag stays 1 after shutdown. -/
theorem Start_idempotent (s : httpserver) (env env2 : StartEnv) :
    (s.started = 1 → Start s env = .returned s []) ∧
    (s.started = 0 → env.listenErr = GoError.errServerClosed →
      (Start s env).state.started = 1 ∧
      Start (Start s env).state env2 = .returned (Start s env).state []) := by
  refine ⟨Start_started s env, fun h0 hl => ?_⟩
  have h1 := Start_first_sets_flag s env h0 hl
  exact ⟨h1, Start_started _ env2 h1⟩

/-- C9, use on a server with an empty router: the first `Start` runs to the shutdown and
leaves the flag at 1, and the second `Start` on the resulting state does nothing. -/
theorem Start_idempotent_witness :
    bareServer.started = 0 ∧ deadlineEnv.listenErr = GoError.errServerClosed ∧
    (Start bareServer deadlineEnv).state.started = 1 ∧
    Start (Start bareServer deadlineEnv).state deadlineEnv =
      .returned (Start bareServer deadlineEnv).state [] ∧
    ({ bareServer with started := 1 } : httpserver).started = 1 ∧
    Start { bareServer with started := 1 } deadlineEnv =
      .returned { bareServer with started := 1 } [] :=
  ⟨rfl, rfl, ((Start_idempotent bareServer deadlineEnv deadlineEnv).2 rfl rfl).1,
    ((Start_idempotent bareServer deadlineEnv deadlineEnv).2 rfl rfl).2, rfl,
    (Start_idempotent { bareServer with started := 1 } deadlineEnv deadlineEnv).1 rfl⟩

theorem Start_runs (s : httpserver) (env : StartEnv)
    (hs : isStarted s = false) (hh : s.mux.m "/health" = none) (hr : s.mux.m "/ready" = none)
    (hm : s.mux.m "/metrics" = none) (hl : env.listenErr = GoError.errServerClosed)
    (hstop : env.stopArrives = true) :
    Start s env =
      .returned
        { s with
          started := addInt32 s.started 1
          mux :=
            { m := ((s.mux.m.set "/health" (.func s.opts.HealthFunc)).set "/ready"
                (.func s.opts.ReadyFunc)).set "/metrics" (.func s.opts.MetricsFunc) }
          http := { s.http with Handler := .mux } }
        ([Event.listen s.http.Addr, Event.log "info" ("Listening on " ++ s.http.Addr)] ++
          Event.shutdown s.opts.ShutdownTimeout :: (shutdownSequence s env).tail) := by
  simp [Start, hs, ServeMux.Handle, GoMap.has, GoMap.set, hh, hr, hm, hl, hstop,
    shutdownSequence]

/-- C10.  On a server that is not started, whose router accepts the three built-in
endpoints and whose listener serves, once the stop signal arrives `Start` returns; its
steps are the listen steps, then the graceful shutdown bounded by `ShutdownTimeout`, then
the rest; no `Close` comes before the shutdown, and a `Close` comes after it if and only
if the shutdown returned the deadline-exceeded error. -/
theorem Start_forces_close_iff_deadline (s : httpserver) (env : StartEnv)
    (hs : isStarted s = false) (hh : s.mux.m "/health" = none) (hr : s.mux.m "/ready" = none)
    (hm : s.mux.m "/metrics" = none) (hl : env.listenErr = GoError.errServerClosed)
    (hstop : env.stopArrives = true) :
    ∃ s2 pre post, Start s env = .returned s2 (pre ++ Event.shutdown s.opts.ShutdownTimeout :: post) ∧
      Event.close ∉ pre ∧ (∀ t, Event.shutdown t ∉ pre) ∧
      (Event.close ∈ post ↔ env.shutdownErr = some GoError.deadlineExceeded) := by
  refine ⟨_, [Event.listen s.http.Addr, Event.log "info" ("Listening on " ++ s.http.Addr)],
    (shutdownSequence s env).tail, Start_runs s env hs hh hr hm hl hstop, by simp, by simp, ?_⟩
  unfold shutdownSequence
  cases hsd : env.shutdownErr with
  | none => simp
  | some err =>
    by_cases he : err = GoError.deadlineExceeded
    · simp [he]
    · simp [he]

/-- C10, use on a server with an empty router when the graceful shutdown runs into its
deadline: `Start` returns and its steps contain the forced close. -/
theorem Start_forces_close_iff_deadline_witness :
    isStarted bareServer = false ∧ deadlineEnv.stopArrives = true ∧
    ∃ s2 pre post, Start bareServer deadlineEnv =
        .returned s2 (pre ++ Event.shutdown bareServer.opts.ShutdownTimeout :: post) ∧
      Event.close ∉ pre ∧ (∀ t, Event.shutdown t ∉ pre) ∧
      (Event.close ∈ post ↔ deadlineEnv.shutdownErr = some GoError.deadlineExceeded) :=
  ⟨rfl, rfl, Start_forces_close_iff_deadline bareServer deadlineEnv rfl rfl rfl rfl rfl rfl⟩

end apiserver
